import Mathlib

/-!
Shallow embedding of the animals-monitor motion detector
(`src/camera/object_detector.py`) and event store (`src/utils/storage.py`).

Grayscale images are lists of rows of natural-number pixel values; the
floating-point background model is a list of rows of rationals (real-number
semantics stand in for IEEE float arithmetic).  External OpenCV primitives
whose internals the program never inspects (colour conversion, the Gaussian
blur kernel, the contour-area measure, box/text drawing) are fields of
`CVPrims`, and datetime formatting (`strftime`/`isoformat`) is bundled in
`SysPrims`; every theorem below is quantified over these primitives.  NumPy
buffers and Python aliasing are modelled by an explicit `Heap` of frames so
that in-place drawing (`cv2.rectangle`, `cv2.putText`) is visible as a heap
update.  Disk writes performed by a save are recorded as an explicit list of
`WriteOp` events.
-/

namespace Monitor

/-- A grayscale 8-bit image: rows of pixel values. -/
abbrev Gray := List (List Nat)

/-- The floating-point background model (`np.float32` array). -/
abbrev BgImg := List (List ℚ)

/-- A BGR pixel. -/
abbrev Pixel := Nat × Nat × Nat

/-- A colour frame as delivered by the camera. -/
abbrev Frame := List (List Pixel)

/-- A pixel position `(row, column)`. -/
abbrev Pos := Nat × Nat

/-- A bounding box `(x, y, w, h)` as returned by `cv2.boundingRect`. -/
abbrev Region := Nat × Nat × Nat × Nat

/-- A heap of frame buffers, modelling NumPy array aliasing: `next` is the
first unallocated reference. -/
structure Heap where
  next : Nat
  mem : Nat → Frame

/-- Read a buffer. -/
def Heap.get (h : Heap) (r : Nat) : Frame := h.mem r

/-- Overwrite a buffer in place (as `cv2.rectangle`/`cv2.putText` do). -/
def Heap.set (h : Heap) (r : Nat) (v : Frame) : Heap :=
  ⟨h.next, fun i => if i = r then v else h.mem i⟩

/-- Allocate a fresh buffer (as `ndarray.copy()` does). -/
def Heap.alloc (h : Heap) (v : Frame) : Nat × Heap :=
  (h.next, ⟨h.next + 1, fun i => if i = h.next then v else h.mem i⟩)

/-- External OpenCV primitives used by the program.  The program never
inspects their output pixel-by-pixel, so the development is parametric in
them. -/
structure CVPrims where
  /-- `cv2.cvtColor(frame, cv2.COLOR_BGR2GRAY)`. -/
  cvtGray : Frame → Gray
  /-- `cv2.GaussianBlur(gray, (k, k), 0)` for kernel size `k`. -/
  gaussianBlur : Nat → Gray → Gray
  /-- `cv2.contourArea` on a contour (a connected foreground component). -/
  contourArea : List Pos → ℚ
  /-- `cv2.rectangle(img, (x, y), (x+w, y+h), green, 2)`, as the pure
  function computing the new buffer contents from `(x, y, w, h)`. -/
  rectangle : ℤ × ℤ × ℤ × ℤ → Frame → Frame
  /-- `cv2.putText(img, text, ...)`, as the pure function computing the new
  buffer contents. -/
  putText : String → Frame → Frame

/-- External datetime rendering primitives (`strftime` / `isoformat`). -/
structure SysPrims where
  /-- `datetime.strftime("%Y%m%d_%H%M%S_%f")`, the object-id format. -/
  strftimeId : ℚ → String
  /-- `datetime.isoformat()`. -/
  isoformat : ℚ → String
  /-- `datetime.strftime("%H-%M-%S")`. -/
  strftimeHMS : ℚ → String
  /-- `datetime.strftime("%Y-%m-%d")`. -/
  strftimeYMD : ℚ → String
  /-- `datetime.strftime("%Y-%m-%d %H:%M:%S")`, drawn onto the image. -/
  strftimeHuman : ℚ → String

/-- State of `ObjectDetector` (`object_detector.py`): the constructor
arguments and the background model, absent until the first frame. -/
structure ObjectDetector where
  min_area : ℤ
  threshold : ℤ
  blur_size : Nat
  dilate_iterations : Nat
  background : Option BgImg

/-- `ObjectDetector()` with the constructor defaults. -/
def ObjectDetector.init : ObjectDetector :=
  { min_area := 500, threshold := 30, blur_size := 21,
    dilate_iterations := 2, background := none }

/-- Pixel read with out-of-range default 0. -/
def px (img : Gray) (i j : Nat) : Nat := ((img[i]?.getD [])[j]?).getD 0

/-- Pixel read at integer coordinates (out of range reads 0). -/
def pxZ (img : Gray) (i j : ℤ) : Nat :=
  if 0 ≤ i ∧ 0 ≤ j then px img i.toNat j.toNat else 0

/-- Length of row `i`. -/
def rowLen (img : Gray) (i : Nat) : Nat := (img[i]?.getD []).length

/-- `cv2.absdiff`: per-pixel absolute difference. -/
def absdiffImg (a b : Gray) : Gray :=
  List.zipWith (List.zipWith (fun (u v : Nat) => ((u : ℤ) - (v : ℤ)).natAbs)) a b

/-- `cv2.threshold(img, t, 255, cv2.THRESH_BINARY)`: pixels strictly above
`t` become 255, all others 0. -/
def thresholdBin (t : ℤ) (img : Gray) : Gray :=
  img.map (List.map (fun (v : Nat) => if t < (v : ℤ) then 255 else 0))

/-- The 3×3 structuring-element offsets used by `cv2.dilate` with a `None`
kernel. -/
def offsets : List (ℤ × ℤ) :=
  [(-1, -1), (-1, 0), (-1, 1), (0, -1), (0, 0), (0, 1), (1, -1), (1, 0), (1, 1)]

/-- Maximum of the 3×3 neighbourhood of `(i, j)` (out-of-range pixels are
ignored, which for `Nat` values is the same as reading them as 0). -/
def maxNbhd (img : Gray) (i j : Nat) : Nat :=
  (offsets.map (fun o => pxZ img ((i : ℤ) + o.1) ((j : ℤ) + o.2))).foldr max 0

/-- One pass of `cv2.dilate` with the default 3×3 kernel. -/
def dilateOnce (img : Gray) : Gray :=
  (List.range img.length).map (fun i =>
    (List.range (rowLen img i)).map (fun j => maxNbhd img i j))

/-- `cv2.dilate(img, None, iterations = n)`. -/
def dilateN (n : Nat) (img : Gray) : Gray := dilateOnce^[n] img

/-- Round half to even (`cvRound`), the rounding used by
`cv2.convertScaleAbs`. -/
def roundHalfEven (q : ℚ) : ℤ :=
  if q - ⌊q⌋ < 1 / 2 then ⌊q⌋
  else if 1 / 2 < q - ⌊q⌋ then ⌊q⌋ + 1
  else if Even ⌊q⌋ then ⌊q⌋ else ⌊q⌋ + 1

/-- Saturate an integer into the 8-bit range. -/
def sat8 (z : ℤ) : ℤ := max 0 (min 255 z)

/-- `cv2.convertScaleAbs` on one value: absolute value, round to nearest
(half to even), saturate to `uint8`. -/
def convertScaleAbs (q : ℚ) : Nat := (sat8 (roundHalfEven |q|)).toNat

/-- `cv2.convertScaleAbs` on a whole background image. -/
def convertImage (bg : BgImg) : Gray := bg.map (List.map convertScaleAbs)

/-- `np.float32` of a grayscale image. -/
def npFloat32 (g : Gray) : BgImg := g.map (List.map (fun (v : Nat) => (v : ℚ)))

/-- `cv2.accumulateWeighted(src, dst, alpha)`:
`dst = (1 - alpha) * dst + alpha * src`, pixelwise in floating point. -/
def accumulateWeighted (src : Gray) (dst : BgImg) (alpha : ℚ) : BgImg :=
  List.zipWith (List.zipWith (fun (s : Nat) (d : ℚ) =>
    (1 - alpha) * d + alpha * (s : ℚ))) src dst

/-- Foreground positions of one row (`j` is the column of the row head). -/
def fgRow (i j : Nat) : List Nat → List Pos
  | [] => []
  | v :: vs => if v ≠ 0 then (i, j) :: fgRow i (j + 1) vs else fgRow i (j + 1) vs

/-- Foreground positions of the rows, starting at row `i`. -/
def fgRowsAux (i : Nat) : Gray → List Pos
  | [] => []
  | row :: rows => fgRow i 0 row ++ fgRowsAux (i + 1) rows

/-- All nonzero pixel positions of a mask. -/
def fgPositions (img : Gray) : List Pos := fgRowsAux 0 img

/-- Foreground 8-neighbours of a position. -/
def neighborsOf (img : Gray) (p : Pos) : List Pos :=
  offsets.filterMap (fun o =>
    let i : ℤ := (p.1 : ℤ) + o.1
    let j : ℤ := (p.2 : ℤ) + o.2
    if 0 ≤ i ∧ 0 ≤ j ∧ pxZ img i j ≠ 0 then some (i.toNat, j.toNat) else none)

/-- Fuel-bounded flood fill collecting the connected component of the
positions on the stack. -/
def flood (img : Gray) : Nat → List Pos → List Pos → List Pos
  | 0, _, visited => visited
  | _ + 1, [], visited => visited
  | fuel + 1, p :: stack, visited =>
    if p ∈ visited then flood img fuel stack visited
    else flood img fuel (neighborsOf img p ++ stack) (p :: visited)

/-- Fuel bound for the flood fill: total pixel count plus one. -/
def pixelCount (img : Gray) : Nat := (img.map List.length).sum + 1

/-- Group the (remaining) foreground positions into connected components. -/
def componentsGo (img : Gray) : List Pos → List Pos → List (List Pos)
  | [], _ => []
  | p :: rest, seen =>
    if p ∈ seen then componentsGo img rest seen
    else
      let comp := flood img (pixelCount img) [p] []
      comp :: componentsGo img rest (comp ++ seen)

/-- Model of `cv2.findContours(mask, cv2.RETR_EXTERNAL, ...)`: the external
contours are modelled as the 8-connected components of the nonzero pixels. -/
def findContours (img : Gray) : List (List Pos) := componentsGo img (fgPositions img) []

/-- `cv2.boundingRect`: the tight axis-aligned box `(x, y, w, h)` of a
contour. -/
def boundingRect (c : List Pos) : Region :=
  match c with
  | [] => (0, 0, 0, 0)
  | p :: rest =>
    let xs := (p :: rest).map Prod.snd
    let ys := (p :: rest).map Prod.fst
    let x0 := xs.foldr min p.2
    let x1 := xs.foldr max p.2
    let y0 := ys.foldr min p.1
    let y1 := ys.foldr max p.1
    (x0, y0, x1 - x0 + 1, y1 - y0 + 1)

/-- The contour loop of `detect_objects`: keep each contour whose area is
not below `min_area` and take its bounding rectangle. -/
def regionsOfMask (cv : CVPrims) (d : ObjectDetector) (mask : Gray) : List Region :=
  (findContours mask).filterMap (fun c =>
    if cv.contourArea c < (d.min_area : ℚ) then none else some (boundingRect c))

/-- `ObjectDetector.preprocess_frame`: grayscale conversion followed by
Gaussian blur with the configured kernel size. -/
def preprocess_frame (cv : CVPrims) (d : ObjectDetector) (frame : Frame) : Gray :=
  cv.gaussianBlur d.blur_size (cv.cvtGray frame)

/-- Result of `detect_objects`: the updated detector, the region list, the
reference of the annotated copy, and the heap after drawing. -/
structure DetectResult where
  detector : ObjectDetector
  objects : List Region
  processedRef : Nat
  heap : Heap

/-- `ObjectDetector.detect_objects` (`object_detector.py`, lines 54-102).
`fref` is the caller's frame buffer.  The annotated copy is a fresh buffer;
boxes are drawn on it in place.  On the first call the background model is
initialized from the smoothed frame and no detection is attempted; on later
calls the model is compared in 8-bit (via `convertScaleAbs`) and then
blended with `accumulateWeighted` at rate 0.2 = 1/5. -/
def detect_objects (cv : CVPrims) (d : ObjectDetector) (h : Heap) (fref : Nat) :
    DetectResult :=
  let ar := h.alloc (h.get fref)
  let pRef := ar.1
  let h1 := ar.2
  let preprocessed := preprocess_frame cv d (h1.get fref)
  match d.background with
  | none =>
    ⟨{ d with background := some (npFloat32 preprocessed) }, [], pRef, h1⟩
  | some bg =>
    let frame_delta := absdiffImg (convertImage bg) preprocessed
    let thresh := dilateN d.dilate_iterations (thresholdBin d.threshold frame_delta)
    let detected := regionsOfMask cv d thresh
    let h2 := detected.foldl (fun hh r =>
      hh.set pRef (cv.rectangle ((r.1 : ℤ), (r.2.1 : ℤ), (r.2.2.1 : ℤ), (r.2.2.2 : ℤ))
        (hh.get pRef))) h1
    ⟨{ d with background := some (accumulateWeighted preprocessed bg (1 / 5)) },
      detected, pRef, h2⟩

/-- One entry of the `images/` directory as seen by `Path.iterdir`:
its name, whether it is a directory, and the files it holds. -/
structure DirEntry where
  name : String
  isDir : Bool
  files : List String
deriving DecidableEq

/-- Split a character list at the dashes (the groups matched by the
`"%Y-%m-%d"` pattern). -/
def splitDash : List Char → List (List Char)
  | [] => [[]]
  | c :: cs =>
    let r := splitDash cs
    if c = '-' then [] :: r
    else
      match r with
      | [] => [[c]]
      | g :: gs => (c :: g) :: gs

/-- Numeric value of a digit group. -/
def digitsVal (l : List Char) : Nat := l.foldl (fun acc c => 10 * acc + (c.toNat - 48)) 0

/-- Proleptic-Gregorian leap year, as `datetime` validates it. -/
def isLeap (y : Nat) : Bool := (y % 4 = 0 && y % 100 ≠ 0) || y % 400 = 0

/-- Number of days in a month. -/
def daysInMonth (y m : Nat) : Nat :=
  if m = 2 then (if isLeap y then 29 else 28)
  else if m = 4 ∨ m = 6 ∨ m = 9 ∨ m = 11 then 30
  else 31

/-- `datetime.strptime(name, "%Y-%m-%d")`: a four-digit year (at least 1),
a one- or two-digit month 1..12, and a one- or two-digit day valid for that
month; anything else raises `ValueError`, modelled as `none`. -/
def parseYMD (s : String) : Option (Nat × Nat × Nat) :=
  match splitDash s.toList with
  | [ys, ms, ds] =>
    if ys.length = 4 ∧ ys.all Char.isDigit
        ∧ 1 ≤ ms.length ∧ ms.length ≤ 2 ∧ ms.all Char.isDigit
        ∧ 1 ≤ ds.length ∧ ds.length ≤ 2 ∧ ds.all Char.isDigit then
      let y := digitsVal ys
      let m := digitsVal ms
      let d := digitsVal ds
      if 1 ≤ y ∧ 1 ≤ m ∧ m ≤ 12 ∧ 1 ≤ d ∧ d ≤ daysInMonth y m then
        some (y, m, d)
      else none
    else none
  | _ => none

/-- Day number of a civil date (standard days-from-civil algorithm), so that
differences of `epochDays` agree with Python `date` subtraction. -/
def epochDays (y m d : Nat) : ℤ :=
  let yy := if m ≤ 2 then y - 1 else y
  let era := yy / 400
  let yoe := yy % 400
  let mp := if 2 < m then m - 3 else m + 9
  let doy := (153 * mp + 2) / 5 + d - 1
  let doe := yoe * 365 + yoe / 4 - yoe / 100 + doy
  (era * 146097 + doe : ℤ) - 719468

/-- `(current_time - dir_date).days` for `now` in seconds and a bucket dated
`y-m-d` (midnight): Python `timedelta.days` is the floor of the day count. -/
def tdDays (now : ℚ) (y m d : Nat) : ℤ :=
  ⌊(now - (epochDays y m d : ℚ) * 86400) / 86400⌋

/-- The deletion test of `cleanup_old_files`: a directory entry is removed
when it is a directory, is not the `latest` pointer, its name parses as a
date, and its age in whole days exceeds `days_to_keep`. -/
def expired (now : ℚ) (days_to_keep : ℤ) (e : DirEntry) : Bool :=
  if !e.isDir || e.name = "latest" then false
  else
    match parseYMD e.name with
    | some (y, m, d) => decide (days_to_keep < tdDays now y m d)
    | none => false

/-- `ImageStorage.cleanup_old_files` (`storage.py`, lines 150-164): remove
every expired date bucket (with its files), keep everything else.  The
source default for `days_to_keep` is 7. -/
def cleanup_old_files (now : ℚ) (days_to_keep : ℤ) (fs : List DirEntry) :
    List DirEntry :=
  fs.filter (fun e => !expired now days_to_keep e)

/-- `ImageStorage._check_storage_space`: free space must strictly exceed
10% of the configured maximum-storage budget. -/
def check_storage_space (max_storage_bytes free : Nat) : Bool :=
  decide ((max_storage_bytes : ℚ) * (1 / 10) < (free : ℚ))

/-- State of `ImageStorage`: the budget and minimum save interval fixed by
the constructor, the rate-limiter timestamp, and the `images/` directory. -/
structure ImageStorage where
  max_storage_bytes : Nat
  min_save_interval : ℚ
  last_save_timestamp : Option ℚ
  fs : List DirEntry

/-- `ImageStorage(base_path, max_storage_gb)`: budget in bytes, interval
10 seconds, no save yet. -/
def ImageStorage.init (max_storage_gb : Nat) (fs : List DirEntry) : ImageStorage :=
  { max_storage_bytes := max_storage_gb * 1024 * 1024 * 1024,
    min_save_interval := 10, last_save_timestamp := none, fs := fs }

/-- A path `images/<date>/<file>`. -/
structure ImgPath where
  date : String
  file : String
deriving DecidableEq

/-- The bounding-box record of the metadata file. -/
structure Bbox where
  x : ℤ
  y : ℤ
  width : ℤ
  height : ℤ
deriving DecidableEq

/-- The frame-size record of the metadata file. -/
structure FrameSize where
  width : Nat
  height : Nat
deriving DecidableEq

/-- The metadata record written next to a saved image: exactly these four
fields. -/
structure Metadata where
  object_id : String
  timestamp : String
  bbox : Bbox
  frame_size : FrameSize
deriving DecidableEq

/-- A disk write performed by a save: the annotated image or the metadata
file. -/
inductive WriteOp where
  | image : ImgPath → WriteOp
  | metaFile : ImgPath → Metadata → WriteOp
deriving DecidableEq

/-- `frame.shape[0]`: the height (row count). -/
def shape0 (f : Frame) : Nat := f.length

/-- `frame.shape[1]`: the width (column count). -/
def shape1 (f : Frame) : Nat := (f.headD []).length

/-- `ImageStorage.generate_filename`: `<HH-MM-SS>_object_<id>.jpg` inside
the current date bucket. -/
def generate_filename (sys : SysPrims) (now : ℚ) (object_id : String) :
    String × ImgPath :=
  let filename := sys.strftimeHMS now ++ "_object_" ++ object_id ++ ".jpg"
  (filename, ⟨sys.strftimeYMD now, filename⟩)

/-- `full_path.with_suffix(".json")`. -/
def withSuffixJson (p : ImgPath) : ImgPath :=
  ⟨p.date, p.file.dropRight 4 ++ ".json"⟩

/-- The outside world as observed during one save attempt: the wall-clock
reading, the free disk space at the first and at the second quota check, and
whether each fallible step (drawing, `cv2.imwrite`, writing the JSON file)
runs without raising. -/
structure Env where
  now : ℚ
  free1 : Nat
  free2 : Nat
  renderOk : Bool
  imwriteOk : Bool
  jsonOk : Bool

/-- Result of a save attempt: the returned boolean, the new store state,
the disk writes performed, and how many times cleanup ran. -/
structure SaveResult where
  ok : Bool
  store : ImageStorage
  wrote : List WriteOp
  cleanups : Nat

/-- A save result together with the frame heap after the attempt. -/
structure SaveOutcome where
  res : SaveResult
  heap : Heap

/-- The rate-limit test of `save_detected_object` (lines 84-89): a prior
save exists and happened less than `min_save_interval` seconds ago. -/
def rate_skip (env : Env) (st : ImageStorage) : Bool :=
  match st.last_save_timestamp with
  | some t => decide (env.now - t < st.min_save_interval)
  | none => false

/-- `ImageStorage.save_detected_object` (`storage.py`, lines 72-143).
The rate-limit check runs first and returns `False` touching nothing; then
the quota check, with one opportunistic cleanup (retention 7 days) and a
re-check whose failure raises `RuntimeError`, caught by the surrounding
`except` which returns `False`; then the metadata record and the annotated
copy are built, the image and the JSON file are written, and only after
both writes succeed is `last_save_timestamp` advanced.  An exception at any
step after the quota check is caught and returns `False` with the
timestamp untouched. -/
def save_detected_object (cv : CVPrims) (sys : SysPrims) (env : Env)
    (st : ImageStorage) (h : Heap) (fref : Nat) (bbox : ℤ × ℤ × ℤ × ℤ) :
    SaveOutcome :=
  if rate_skip env st then ⟨⟨false, st, [], 0⟩, h⟩
  else
    let needClean : Bool := !check_storage_space st.max_storage_bytes env.free1
    let st1 := if needClean then
      { st with fs := cleanup_old_files env.now 7 st.fs } else st
    let cleanups := if needClean then 1 else 0
    let spaceOk : Bool :=
      if needClean then check_storage_space st.max_storage_bytes env.free2 else true
    if !spaceOk then ⟨⟨false, st1, [], cleanups⟩, h⟩
    else
      let object_id := sys.strftimeId env.now
      let md : Metadata :=
        { object_id := object_id, timestamp := sys.isoformat env.now,
          bbox := ⟨bbox.1, bbox.2.1, bbox.2.2.1, bbox.2.2.2⟩,
          frame_size := ⟨shape1 (h.get fref), shape0 (h.get fref)⟩ }
      let fp := (generate_filename sys env.now object_id).2
      let ar := h.alloc (h.get fref)
      let cref := ar.1
      let h1 := ar.2
      if !env.renderOk then ⟨⟨false, st1, [], cleanups⟩, h1⟩
      else
        let h2 := h1.set cref
          (cv.putText (sys.strftimeHuman env.now) (cv.rectangle bbox (h1.get cref)))
        if !env.imwriteOk then ⟨⟨false, st1, [], cleanups⟩, h2⟩
        else if !env.jsonOk then ⟨⟨false, st1, [WriteOp.image fp], cleanups⟩, h2⟩
        else
          ⟨⟨true, { st1 with last_save_timestamp := some env.now },
            [WriteOp.image fp, WriteOp.metaFile (withSuffixJson fp) md], cleanups⟩, h2⟩

/-! Concrete instances used to exhibit the theorems at explicit inputs. -/

/-- A concrete choice of OpenCV primitives. -/
def cv0 : CVPrims :=
  { cvtGray := fun f => f.map (List.map (fun _ => 0)),
    gaussianBlur := fun _ g => g,
    contourArea := fun c => (c.length : ℚ),
    rectangle := fun _ f => f,
    putText := fun _ f => f }

/-- A concrete choice of datetime formatters. -/
def sys0 : SysPrims :=
  { strftimeId := fun _ => "id0",
    isoformat := fun _ => "iso0",
    strftimeHMS := fun _ => "12-00-00",
    strftimeYMD := fun _ => "2026-10-12",
    strftimeHuman := fun _ => "2026-10-12 12:00:00" }

/-- A one-pixel frame. -/
def frame0 : Frame := [[(0, 0, 0)]]

/-- A heap holding `frame0` at reference 0. -/
def heap0 : Heap := ⟨1, fun _ => frame0⟩

/-- A fresh store: 10 GB budget, empty `images/` directory. -/
def st0 : ImageStorage := ImageStorage.init 10 []

/-- The store after a save at time 0. -/
def stA : ImageStorage := { st0 with last_save_timestamp := some 0 }

/-- An attempt 5 seconds after the last save. -/
def envRate : Env := ⟨5, 0, 0, true, true, true⟩

/-- An attempt with ample free space and no I/O failure. -/
def envGood : Env := ⟨100, 2000000000, 0, true, true, true⟩

/-- An attempt where writing the metadata file raises. -/
def envJsonFail : Env := ⟨100, 2000000000, 0, true, true, false⟩

/-- An attempt with no free space, before or after cleanup. -/
def envNoSpace : Env := ⟨100, 0, 0, true, true, true⟩

/-- A one-pixel background model. -/
def bg0 : BgImg := [[0]]

/-- A detector that has already seen a frame. -/
def dBg : ObjectDetector := { ObjectDetector.init with background := some bg0 }

/-- A date bucket 100 days old at `now4`. -/
def dOld : DirEntry := ⟨"2020-01-02", true, []⟩

/-- A date bucket 2 days old at `now4`. -/
def dNew : DirEntry := ⟨"2020-04-09", true, []⟩

/-- The `latest` pointer. -/
def dLatest : DirEntry := ⟨"latest", true, []⟩

/-- An `images/` directory with an expired bucket, a fresh bucket and the
`latest` pointer. -/
def fs4 : List DirEntry := [dOld, dNew, dLatest]

/-- 2020-04-11 00:00:00 as seconds (day 18363 of the Unix epoch). -/
def now4 : ℚ := 1586563200

/-! Heap lemmas. -/

/-- Writing one buffer leaves the others unchanged. -/
theorem Heap.get_set_ne (h : Heap) (r : Nat) (v : Frame) (r2 : Nat)
    (hne : r2 ≠ r) : (h.set r v).get r2 = h.get r2 := by
  simp [Heap.set, Heap.get, hne]

/-- Allocation leaves every already-valid buffer unchanged. -/
theorem Heap.get_alloc_of_lt (h : Heap) (v : Frame) (r2 : Nat)
    (hlt : r2 < h.next) : (h.alloc v).2.get r2 = h.get r2 := by
  simp [Heap.alloc, Heap.get, Nat.ne_of_lt hlt]

/-- Reading a buffer after allocating a copy of it gives the same frame,
whether or not the reference was valid. -/
theorem Heap.get_alloc_dup (h : Heap) (r : Nat) :
    (h.alloc (h.get r)).2.get r = h.get r := by
  simp only [Heap.alloc, Heap.get]
  split <;> rfl

/-- Repeatedly overwriting one buffer leaves the others unchanged. -/
theorem Heap.get_foldl_set {α : Type} (r r2 : Nat) (hne : r2 ≠ r)
    (g : Heap → α → Frame) :
    ∀ (l : List α) (h : Heap),
      (l.foldl (fun hh a => hh.set r (g hh a)) h).get r2 = h.get r2
  | [], h => rfl
  | a :: l, h => by
    rw [List.foldl_cons, Heap.get_foldl_set r r2 hne g l, Heap.get_set_ne _ _ _ _ hne]

/-! Rate-limit test lemmas. -/

/-- No prior save: the rate limiter never skips. -/
theorem rate_skip_none (env : Env) (st : ImageStorage)
    (h : st.last_save_timestamp = none) : rate_skip env st = false := by
  simp [rate_skip, h]

/-- The interval has passed: the rate limiter does not skip. -/
theorem rate_skip_of_ge (env : Env) (st : ImageStorage) (t : ℚ)
    (h : st.last_save_timestamp = some t)
    (hge : st.min_save_interval ≤ env.now - t) : rate_skip env st = false := by
  simp [rate_skip, h, not_lt.mpr hge]

/-- The rate limiter does not skip when the attempt passes the rate-limit
check. -/
theorem rate_skip_eq_false (env : Env) (st : ImageStorage)
    (hrate : ∀ t, st.last_save_timestamp = some t →
      st.min_save_interval ≤ env.now - t) : rate_skip env st = false := by
  cases hst : st.last_save_timestamp with
  | none => exact rate_skip_none env st hst
  | some t => exact rate_skip_of_ge env st t hst (hrate t hst)

/-! Claim C1. -/

/-- Claim C1: a save attempt made less than `min_save_interval` seconds
(10 by construction) after a successful save returns `False` at once:
nothing is written, no cleanup runs, and the store state — timestamp and
directory contents — and the frame heap are untouched. -/
theorem save_skipped_within_min_interval
    (cv : CVPrims) (sys : SysPrims) (env : Env) (st : ImageStorage) (h : Heap)
    (fref : Nat) (bbox : ℤ × ℤ × ℤ × ℤ) (t : ℚ)
    (ht : st.last_save_timestamp = some t)
    (hlt : env.now - t < st.min_save_interval) :
    (save_detected_object cv sys env st h fref bbox).res.ok = false ∧
    (save_detected_object cv sys env st h fref bbox).res.wrote = [] ∧
    (save_detected_object cv sys env st h fref bbox).res.store = st ∧
    (save_detected_object cv sys env st h fref bbox).res.cleanups = 0 ∧
    (save_detected_object cv sys env st h fref bbox).heap = h := by
  have hs : rate_skip env st = true := by simp [rate_skip, ht, hlt]
  simp [save_detected_object, hs]

/-- Claim C1 exhibited: an attempt 5 seconds after a save at time 0 is
skipped without touching anything. -/
theorem save_skipped_within_min_interval_witness :
    (save_detected_object cv0 sys0 envRate stA heap0 0 (1, 2, 3, 4)).res.ok = false ∧
    (save_detected_object cv0 sys0 envRate stA heap0 0 (1, 2, 3, 4)).res.wrote = [] ∧
    (save_detected_object cv0 sys0 envRate stA heap0 0 (1, 2, 3, 4)).res.store = stA ∧
    (save_detected_object cv0 sys0 envRate stA heap0 0 (1, 2, 3, 4)).res.cleanups = 0 ∧
    (save_detected_object cv0 sys0 envRate stA heap0 0 (1, 2, 3, 4)).heap = heap0 :=
  save_skipped_within_min_interval cv0 sys0 envRate stA heap0 0 (1, 2, 3, 4) 0
    rfl (by norm_num [envRate, stA, st0, ImageStorage.init])

/-! Claim C2. -/

/-- Claim C2: the first call on a freshly constructed detector returns an
empty region list whatever the frame holds, and sets the background model
to exactly the float of the smoothed frame — no blending. -/
theorem first_call_returns_empty_and_inits_background
    (cv : CVPrims) (d : ObjectDetector) (h : Heap) (fref : Nat)
    (hbg : d.background = none) :
    (detect_objects cv d h fref).objects = [] ∧
    (detect_objects cv d h fref).detector.background
      = some (npFloat32 (preprocess_frame cv d (h.get fref))) := by
  constructor <;> simp [detect_objects, hbg, Heap.get_alloc_dup]

/-- Claim C2 exhibited on a fresh default detector and a concrete frame. -/
theorem first_call_returns_empty_and_inits_background_witness :
    (detect_objects cv0 ObjectDetector.init heap0 0).objects = [] ∧
    (detect_objects cv0 ObjectDetector.init heap0 0).detector.background
      = some (npFloat32 (preprocess_frame cv0 ObjectDetector.init (heap0.get 0))) :=
  first_call_returns_empty_and_inits_background cv0 ObjectDetector.init heap0 0 rfl

/-! Claim C7. -/

/-- Claim C7: on every call with an existing background model — regions or
no regions — the model becomes
`(1 - alpha) * background + alpha * smoothed_frame` pixelwise with
`alpha = 0.2 = 1/5`, in (real-valued) floating point. -/
theorem background_blended_every_later_call
    (cv : CVPrims) (d : ObjectDetector) (h : Heap) (fref : Nat) (bg : BgImg)
    (hbg : d.background = some bg) :
    (detect_objects cv d h fref).detector.background
      = some (List.zipWith (List.zipWith (fun (s : Nat) (b : ℚ) =>
          (1 - 1 / 5) * b + (1 / 5) * (s : ℚ)))
          (preprocess_frame cv d (h.get fref)) bg) := by
  simp [detect_objects, hbg, accumulateWeighted, Heap.get_alloc_dup]

/-- Claim C7 exhibited on a detector holding a one-pixel background. -/
theorem background_blended_every_later_call_witness :
    (detect_objects cv0 dBg heap0 0).detector.background
      = some (List.zipWith (List.zipWith (fun (s : Nat) (b : ℚ) =>
          (1 - 1 / 5) * b + (1 / 5) * (s : ℚ)))
          (preprocess_frame cv0 dBg (heap0.get 0)) bg0) :=
  background_blended_every_later_call cv0 dBg heap0 0 bg0 rfl

/-! Claim C3. -/

/-- Only the fully successful branch of `save_detected_object` advances the
rate-limiter timestamp. -/
theorem save_ts_changed_imp_ok (cv : CVPrims) (sys : SysPrims) (env : Env)
    (st : ImageStorage) (h : Heap) (fref : Nat) (bbox : ℤ × ℤ × ℤ × ℤ) :
    (save_detected_object cv sys env st h fref bbox).res.store.last_save_timestamp
      ≠ st.last_save_timestamp →
    (save_detected_object cv sys env st h fref bbox).res.ok = true := by
  cases hrs : rate_skip env st <;>
  cases hf1 : check_storage_space st.max_storage_bytes env.free1 <;>
  cases hf2 : check_storage_space st.max_storage_bytes env.free2 <;>
  cases hr : env.renderOk <;> cases hw : env.imwriteOk <;> cases hj : env.jsonOk <;>
  simp [save_detected_object, hrs, hf1, hf2, hr, hw, hj]

/-- Claim C3: past the rate-limit and quota checks, an exception while
drawing the annotation, writing the image, or writing the metadata file
makes the save return `False` with `last_save_timestamp` untouched; and on
any attempt whatsoever the timestamp moves only when the save returns
success. -/
theorem io_failure_returns_false_and_keeps_timestamp
    (cv : CVPrims) (sys : SysPrims) (env : Env) (st : ImageStorage) (h : Heap)
    (fref : Nat) (bbox : ℤ × ℤ × ℤ × ℤ)
    (hrate : ∀ t, st.last_save_timestamp = some t →
      st.min_save_interval ≤ env.now - t)
    (hspace : check_storage_space st.max_storage_bytes env.free1 = true ∨
      check_storage_space st.max_storage_bytes env.free2 = true)
    (hio : env.renderOk = false ∨ env.imwriteOk = false ∨ env.jsonOk = false) :
    (save_detected_object cv sys env st h fref bbox).res.ok = false ∧
    (save_detected_object cv sys env st h fref bbox).res.store.last_save_timestamp
      = st.last_save_timestamp ∧
    (∀ env2 : Env,
      (save_detected_object cv sys env2 st h fref bbox).res.store.last_save_timestamp
        ≠ st.last_save_timestamp →
      (save_detected_object cv sys env2 st h fref bbox).res.ok = true) := by
  refine ⟨?_, ?_, fun env2 => save_ts_changed_imp_ok cv sys env2 st h fref bbox⟩ <;>
  · have hrs := rate_skip_eq_false env st hrate
    cases hf1 : check_storage_space st.max_storage_bytes env.free1 <;>
    cases hf2 : check_storage_space st.max_storage_bytes env.free2 <;>
    cases hr : env.renderOk <;> cases hw : env.imwriteOk <;> cases hj : env.jsonOk <;>
    simp_all [save_detected_object]

/-- Claim C3 exhibited: a metadata-write failure on an otherwise clear
attempt returns `False` and leaves the timestamp alone. -/
theorem io_failure_returns_false_and_keeps_timestamp_witness :
    (save_detected_object cv0 sys0 envJsonFail st0 heap0 0 (1, 2, 3, 4)).res.ok
      = false ∧
    (save_detected_object cv0 sys0 envJsonFail st0 heap0 0
      (1, 2, 3, 4)).res.store.last_save_timestamp = st0.last_save_timestamp ∧
    (∀ env2 : Env,
      (save_detected_object cv0 sys0 env2 st0 heap0 0
        (1, 2, 3, 4)).res.store.last_save_timestamp ≠ st0.last_save_timestamp →
      (save_detected_object cv0 sys0 env2 st0 heap0 0 (1, 2, 3, 4)).res.ok = true) :=
  io_failure_returns_false_and_keeps_timestamp cv0 sys0 envJsonFail st0 heap0 0
    (1, 2, 3, 4)
    (fun t htx => by simp [st0, ImageStorage.init] at htx)
    (Or.inl (by
      simp only [check_storage_space, st0, ImageStorage.init, envJsonFail]
      rw [decide_eq_true_eq]
      norm_num))
    (Or.inr (Or.inr rfl))

/-! Claim C5. -/

/-- Claim C5: every successful save writes the annotated image and, beside
it, a metadata record holding exactly the object id, the timestamp string,
the bounding box `{x, y, width, height}` of the input region and the frame
size `{width = shape[1], height = shape[0]}` of the input frame. -/
theorem successful_save_metadata_record
    (cv : CVPrims) (sys : SysPrims) (env : Env) (st : ImageStorage) (h : Heap)
    (fref : Nat) (x0 y0 w0 h0 : ℤ)
    (hok : (save_detected_object cv sys env st h fref (x0, y0, w0, h0)).res.ok
      = true) :
    (save_detected_object cv sys env st h fref (x0, y0, w0, h0)).res.wrote
      = [WriteOp.image (generate_filename sys env.now (sys.strftimeId env.now)).2,
         WriteOp.metaFile
           (withSuffixJson (generate_filename sys env.now (sys.strftimeId env.now)).2)
           { object_id := sys.strftimeId env.now,
             timestamp := sys.isoformat env.now,
             bbox := ⟨x0, y0, w0, h0⟩,
             frame_size := ⟨shape1 (h.get fref), shape0 (h.get fref)⟩ }] := by
  cases hrs : rate_skip env st <;>
  cases hf1 : check_storage_space st.max_storage_bytes env.free1 <;>
  cases hf2 : check_storage_space st.max_storage_bytes env.free2 <;>
  cases hr : env.renderOk <;> cases hw : env.imwriteOk <;> cases hj : env.jsonOk <;>
  simp_all [save_detected_object]

/-- Claim C5 exhibited: the files and the metadata record of a concrete
successful save. -/
theorem successful_save_metadata_record_witness :
    (save_detected_object cv0 sys0 envGood st0 heap0 0 (1, 2, 3, 4)).res.wrote
      = [WriteOp.image ⟨"2026-10-12", "12-00-00_object_id0.jpg"⟩,
         WriteOp.metaFile ⟨"2026-10-12", "12-00-00_object_id0.json"⟩
           ⟨"id0", "iso0", ⟨1, 2, 3, 4⟩, ⟨1, 1⟩⟩] := by
  have hchk : check_storage_space 10737418240 2000000000 = true := by
    rw [check_storage_space, decide_eq_true_eq]
    norm_num
  have hok : (save_detected_object cv0 sys0 envGood st0 heap0 0
      (1, 2, 3, 4)).res.ok = true := by
    simp [save_detected_object, rate_skip, st0, ImageStorage.init, envGood, hchk]
  have hw := successful_save_metadata_record cv0 sys0 envGood st0 heap0 0 1 2 3 4 hok
  rw [hw]
  rfl

/-! Claim C6. -/

/-- Claim C6: when the attempt passes the rate limit but the first space
check fails, cleanup runs exactly once (with the 7-day default) and the
space check is re-run on the volume; if the re-check fails too, the save
returns `False` and writes neither image nor metadata. -/
theorem quota_cleanup_once_then_fail
    (cv : CVPrims) (sys : SysPrims) (env : Env) (st : ImageStorage) (h : Heap)
    (fref : Nat) (bbox : ℤ × ℤ × ℤ × ℤ)
    (hrate : ∀ t, st.last_save_timestamp = some t →
      st.min_save_interval ≤ env.now - t)
    (hfree1 : check_storage_space st.max_storage_bytes env.free1 = false) :
    (save_detected_object cv sys env st h fref bbox).res.cleanups = 1 ∧
    (save_detected_object cv sys env st h fref bbox).res.store.fs
      = cleanup_old_files env.now 7 st.fs ∧
    (check_storage_space st.max_storage_bytes env.free2 = false →
      (save_detected_object cv sys env st h fref bbox).res.ok = false ∧
      (save_detected_object cv sys env st h fref bbox).res.wrote = []) := by
  have hrs := rate_skip_eq_false env st hrate
  cases hf2 : check_storage_space st.max_storage_bytes env.free2 <;>
  cases hr : env.renderOk <;> cases hw : env.imwriteOk <;> cases hj : env.jsonOk <;>
  simp_all [save_detected_object]

/-- Claim C6 exhibited: with no free space before or after cleanup, one
cleanup runs and the save fails without writing. -/
theorem quota_cleanup_once_then_fail_witness :
    (save_detected_object cv0 sys0 envNoSpace st0 heap0 0 (1, 2, 3, 4)).res.cleanups
      = 1 ∧
    (save_detected_object cv0 sys0 envNoSpace st0 heap0 0 (1, 2, 3, 4)).res.store.fs
      = cleanup_old_files envNoSpace.now 7 st0.fs ∧
    (check_storage_space st0.max_storage_bytes envNoSpace.free2 = false →
      (save_detected_object cv0 sys0 envNoSpace st0 heap0 0 (1, 2, 3, 4)).res.ok
        = false ∧
      (save_detected_object cv0 sys0 envNoSpace st0 heap0 0 (1, 2, 3, 4)).res.wrote
        = []) :=
  quota_cleanup_once_then_fail cv0 sys0 envNoSpace st0 heap0 0 (1, 2, 3, 4)
    (fun t htx => by simp [st0, ImageStorage.init] at htx)
    (by
      simp only [check_storage_space, st0, ImageStorage.init, envNoSpace]
      rw [decide_eq_false_iff_not]
      norm_num)

/-! Claim C4. -/

/-- The `latest` pointer is not a date. -/
theorem parseYMD_latest : parseYMD "latest" = none := by decide

/-- Claim C4: for any directory state, cleanup removes exactly the
date-named buckets whose age in whole days exceeds the retention window
(7 by the source default), keeps every bucket within the window and every
entry whose name is not a date (such as `latest`), and running it twice in
a row changes nothing the second time. -/
theorem cleanup_deletes_only_expired_date_buckets
    (now : ℚ) (keep : ℤ) (fs : List DirEntry) :
    (∀ e ∈ fs, e.isDir = true → ∀ y m d, parseYMD e.name = some (y, m, d) →
      keep < tdDays now y m d → e ∉ cleanup_old_files now keep fs) ∧
    (∀ e ∈ fs, parseYMD e.name = none → e ∈ cleanup_old_files now keep fs) ∧
    (∀ e ∈ fs, ∀ y m d, parseYMD e.name = some (y, m, d) →
      tdDays now y m d ≤ keep → e ∈ cleanup_old_files now keep fs) ∧
    cleanup_old_files now keep (cleanup_old_files now keep fs)
      = cleanup_old_files now keep fs := by
  refine ⟨?_, ?_, ?_, ?_⟩
  · intro e he hdir y m d hp hage hmem
    have hne : ¬(e.name = "latest") := fun hl => by
      rw [hl, parseYMD_latest] at hp
      cases hp
    have hexp : expired now keep e = true := by
      simp [expired, hdir, hne, hp, hage]
    rw [cleanup_old_files, List.mem_filter, hexp] at hmem
    simp at hmem
  · intro e he hp
    rw [cleanup_old_files, List.mem_filter]
    refine ⟨he, ?_⟩
    simp [expired, hp]
  · intro e he y m d hp hage
    rw [cleanup_old_files, List.mem_filter]
    refine ⟨he, ?_⟩
    have hdec : decide (keep < tdDays now y m d) = false :=
      decide_eq_false (not_lt.mpr hage)
    simp [expired, hp, hdec]
  · rw [cleanup_old_files, cleanup_old_files, List.filter_filter]
    simp

/-- Claim C4 exhibited on a directory with a 100-day-old bucket, a
2-day-old bucket and the `latest` pointer, at 2020-04-11 00:00. -/
theorem cleanup_deletes_only_expired_date_buckets_witness :
    dOld ∉ cleanup_old_files now4 7 fs4 ∧
    dLatest ∈ cleanup_old_files now4 7 fs4 ∧
    dNew ∈ cleanup_old_files now4 7 fs4 ∧
    cleanup_old_files now4 7 (cleanup_old_files now4 7 fs4)
      = cleanup_old_files now4 7 fs4 := by
  have hspec := cleanup_deletes_only_expired_date_buckets now4 7 fs4
  have hdOld : epochDays 2020 1 2 = 18263 := by decide
  have hdNew : epochDays 2020 4 9 = 18361 := by decide
  refine ⟨hspec.1 dOld (by simp [fs4]) rfl 2020 1 2 (by decide) ?_,
    hspec.2.1 dLatest (by simp [fs4]) (by decide),
    hspec.2.2.1 dNew (by simp [fs4]) 2020 4 9 (by decide) ?_, hspec.2.2.2⟩
  · rw [tdDays, hdOld, now4]
    norm_num
  · rw [tdDays, hdNew, now4]
    norm_num

/-! Claim C8. -/

/-- `roundHalfEven` lands within half a unit of its argument. -/
theorem roundHalfEven_nearest (q : ℚ) : |(roundHalfEven q : ℚ) - q| ≤ 1 / 2 := by
  have h0 : (⌊q⌋ : ℚ) ≤ q := Int.floor_le q
  have h1 : q < ⌊q⌋ + 1 := Int.lt_floor_add_one q
  rw [roundHalfEven]
  split_ifs with ha hb hc <;> rw [abs_le] <;> constructor <;> push_cast <;> linarith

/-- On the 8-bit range, `convertScaleAbs` is a round-to-nearest map. -/
theorem convertScaleAbs_nearest (q : ℚ) (hq0 : 0 ≤ q) (hq255 : q ≤ 255) :
    |((convertScaleAbs q : Nat) : ℚ) - q| ≤ 1 / 2 := by
  have hr := roundHalfEven_nearest q
  have hb := abs_le.mp hr
  have hge : 0 ≤ roundHalfEven q := by
    have hq : (-1 : ℚ) < (roundHalfEven q : ℚ) := by linarith [hb.1]
    have hz : (-1 : ℤ) < roundHalfEven q := by exact_mod_cast hq
    omega
  have hle : roundHalfEven q ≤ 255 := by
    have hq : ((roundHalfEven q : ℚ)) < 256 := by linarith [hb.2]
    have hz : roundHalfEven q < 256 := by exact_mod_cast hq
    omega
  have hsat : sat8 (roundHalfEven q) = roundHalfEven q := by
    rw [sat8]
    omega
  rw [convertScaleAbs, abs_of_nonneg hq0, hsat]
  have hcast : (((roundHalfEven q).toNat : Nat) : ℚ) = ((roundHalfEven q : ℤ) : ℚ) := by
    exact_mod_cast Int.toNat_of_nonneg hge
  rw [hcast]
  exact hr

/-- `convertScaleAbs` rounds 0.9 up to 1; truncation would give 0. -/
theorem convertScaleAbs_nine_tenths : convertScaleAbs (9 / 10) = 1 := by
  have hf : ⌊(9 / 10 : ℚ)⌋ = 0 := by
    rw [Int.floor_eq_iff]
    norm_num
  have habs : |(9 / 10 : ℚ)| = 9 / 10 := abs_of_nonneg (by norm_num)
  rw [convertScaleAbs, habs, roundHalfEven, hf]
  rw [if_neg (by norm_num), if_pos (by norm_num)]
  rfl

/-- Claim C8: on every call with an existing background, the region list is
computed from the absolute difference between the smoothed frame and the
background rendered back to 8 bits by `convertScaleAbs`; that rendering is
a round-to-nearest map (within half a unit on the 8-bit range, and 0.9 goes
to 1, not to 0 as truncation would). -/
theorem difference_uses_round_to_nearest_background
    (cv : CVPrims) (d : ObjectDetector) (h : Heap) (fref : Nat) (bg : BgImg)
    (hbg : d.background = some bg) :
    (detect_objects cv d h fref).objects
      = regionsOfMask cv d (dilateN d.dilate_iterations (thresholdBin d.threshold
          (absdiffImg (bg.map (List.map convertScaleAbs))
            (preprocess_frame cv d (h.get fref))))) ∧
    (∀ q : ℚ, 0 ≤ q → q ≤ 255 → |((convertScaleAbs q : Nat) : ℚ) - q| ≤ 1 / 2) ∧
    convertScaleAbs (9 / 10) = 1 := by
  refine ⟨?_, fun q hq0 hq255 => convertScaleAbs_nearest q hq0 hq255,
    convertScaleAbs_nine_tenths⟩
  simp [detect_objects, hbg, convertImage, Heap.get_alloc_dup]

/-- Claim C8 exhibited on a detector holding a one-pixel background. -/
theorem difference_uses_round_to_nearest_background_witness :
    (detect_objects cv0 dBg heap0 0).objects
      = regionsOfMask cv0 dBg (dilateN dBg.dilate_iterations
          (thresholdBin dBg.threshold
            (absdiffImg (bg0.map (List.map convertScaleAbs))
              (preprocess_frame cv0 dBg (heap0.get 0))))) ∧
    (∀ q : ℚ, 0 ≤ q → q ≤ 255 → |((convertScaleAbs q : Nat) : ℚ) - q| ≤ 1 / 2) ∧
    convertScaleAbs (9 / 10) = 1 :=
  difference_uses_round_to_nearest_background cv0 dBg heap0 0 bg0 rfl

/-! Claim C9. -/

/-- A fold of `max` over zeros is zero. -/
theorem foldr_max_zero (l : List Nat) (h : ∀ x ∈ l, x = 0) : l.foldr max 0 = 0 := by
  induction l with
  | nil => rfl
  | cons a l ih =>
    rw [List.foldr_cons, h a (by simp), ih (fun x hx => h x (by simp [hx]))]
    simp

/-- A predicate holding on a list and on the default holds on any indexed
read. -/
theorem getD_all {α : Type} (P : α → Prop) (d : α) (hd : P d) :
    ∀ (l : List α) (i : Nat), (∀ a ∈ l, P a) → P (l[i]?.getD d)
  | [], _, _ => by simpa using hd
  | a :: _, 0, h => by simpa using h a (by simp)
  | _ :: l, i + 1, h => by
    simpa using getD_all P d hd l i (fun b hb => h b (by simp [hb]))

/-- Every pixel read from an all-zero image is zero. -/
theorem px_zero (img : Gray) (hz : ∀ row ∈ img, ∀ v ∈ row, v = 0) (i j : Nat) :
    px img i j = 0 := by
  rw [px]
  have hrow : ∀ v ∈ img[i]?.getD [], v = 0 :=
    getD_all (fun row => ∀ v ∈ row, v = 0) [] (by simp) img i hz
  exact getD_all (fun v => v = 0) 0 rfl _ j hrow

/-- Integer-indexed pixel reads from an all-zero image are zero. -/
theorem pxZ_zero (img : Gray) (hz : ∀ row ∈ img, ∀ v ∈ row, v = 0) (i j : ℤ) :
    pxZ img i j = 0 := by
  rw [pxZ]
  split
  · exact px_zero img hz _ _
  · rfl

/-- Neighbourhood maxima of an all-zero image are zero. -/
theorem maxNbhd_zero (img : Gray) (hz : ∀ row ∈ img, ∀ v ∈ row, v = 0)
    (i j : Nat) : maxNbhd img i j = 0 := by
  rw [maxNbhd]
  apply foldr_max_zero
  intro x hx
  simp only [List.mem_map] at hx
  obtain ⟨o, -, rfl⟩ := hx
  exact pxZ_zero img hz _ _

/-- Dilation keeps an all-zero mask all zero. -/
theorem dilateOnce_zero (img : Gray) (hz : ∀ row ∈ img, ∀ v ∈ row, v = 0) :
    ∀ row ∈ dilateOnce img, ∀ v ∈ row, v = 0 := by
  intro row hrow v hv
  rw [dilateOnce] at hrow
  simp only [List.mem_map, List.mem_range] at hrow
  obtain ⟨i, -, rfl⟩ := hrow
  simp only [List.mem_map, List.mem_range] at hv
  obtain ⟨j, -, rfl⟩ := hv
  exact maxNbhd_zero img hz i j

/-- Iterated dilation keeps an all-zero mask all zero. -/
theorem dilateN_zero : ∀ (n : Nat) (img : Gray),
    (∀ row ∈ img, ∀ v ∈ row, v = 0) → ∀ row ∈ dilateN n img, ∀ v ∈ row, v = 0
  | 0, img, hz => by simpa [dilateN] using hz
  | n + 1, img, hz => by
    rw [dilateN, Function.iterate_succ_apply]
    exact dilateN_zero n (dilateOnce img) (dilateOnce_zero img hz)

/-- The absolute difference of an image with itself is all zero. -/
theorem absdiff_self_zero (g : Gray) : ∀ row ∈ absdiffImg g g, ∀ v ∈ row, v = 0 := by
  intro row hrow v hv
  rw [absdiffImg, List.zipWith_same] at hrow
  simp only [List.mem_map] at hrow
  obtain ⟨r, -, rfl⟩ := hrow
  rw [List.zipWith_same] at hv
  simp only [List.mem_map] at hv
  obtain ⟨u, -, rfl⟩ := hv
  simp

/-- Binarizing an all-zero image with a nonnegative threshold gives an
all-zero mask. -/
theorem thresholdBin_zero (t : ℤ) (htt : 0 ≤ t) (g : Gray)
    (hz : ∀ row ∈ g, ∀ v ∈ row, v = 0) :
    ∀ row ∈ thresholdBin t g, ∀ v ∈ row, v = 0 := by
  intro row hrow v hv
  rw [thresholdBin] at hrow
  simp only [List.mem_map] at hrow
  obtain ⟨r, hr, rfl⟩ := hrow
  simp only [List.mem_map] at hv
  obtain ⟨u, hu, rfl⟩ := hv
  have hu0 : u = 0 := hz r hr u hu
  rw [hu0, if_neg (by push_cast; omega)]

/-- An all-zero row yields no foreground positions. -/
theorem fgRow_zero (i : Nat) (l : List Nat) (h : ∀ v ∈ l, v = 0) :
    ∀ j, fgRow i j l = [] := by
  induction l with
  | nil => intro j; rfl
  | cons a l ih =>
    intro j
    have ha : a = 0 := h a (by simp)
    rw [fgRow, if_neg (by simp [ha])]
    exact ih (fun v hv => h v (by simp [hv])) (j + 1)

/-- An all-zero mask yields no foreground positions, from any start row. -/
theorem fgRowsAux_zero : ∀ (i : Nat) (g : Gray),
    (∀ row ∈ g, ∀ v ∈ row, v = 0) → fgRowsAux i g = []
  | _, [], _ => rfl
  | i, row :: rows, h => by
    rw [fgRowsAux, fgRow_zero i row (h row (by simp)) 0,
      fgRowsAux_zero (i + 1) rows (fun r hr => h r (by simp [hr]))]
    rfl

/-- An all-zero mask yields no foreground positions. -/
theorem fgPositions_zero (g : Gray) (hz : ∀ row ∈ g, ∀ v ∈ row, v = 0) :
    fgPositions g = [] := fgRowsAux_zero 0 g hz

/-- Claim C9: with a background model in place and a nonnegative threshold,
a frame whose smoothed version renders pixel-for-pixel identical to the
8-bit view of the background produces no regions. -/
theorem identical_frame_yields_no_regions
    (cv : CVPrims) (d : ObjectDetector) (h : Heap) (fref : Nat) (bg : BgImg)
    (hbg : d.background = some bg)
    (hthr : 0 ≤ d.threshold)
    (heq : preprocess_frame cv d (h.get fref) = convertImage bg) :
    (detect_objects cv d h fref).objects = [] := by
  have hzero : ∀ row ∈ dilateN d.dilate_iterations (thresholdBin d.threshold
      (absdiffImg (convertImage bg) (convertImage bg))), ∀ v ∈ row, v = 0 :=
    dilateN_zero _ _ (thresholdBin_zero _ hthr _ (absdiff_self_zero _))
  simp only [detect_objects, hbg, Heap.get_alloc_dup, heq]
  rw [regionsOfMask, findContours, fgPositions_zero _ hzero]
  rfl

/-- Claim C9 exhibited: the all-zero one-pixel frame against the matching
one-pixel background yields no regions. -/
theorem identical_frame_yields_no_regions_witness :
    (detect_objects cv0 dBg heap0 0).objects = [] :=
  identical_frame_yields_no_regions cv0 dBg heap0 0 bg0 rfl (by decide)
    (by
      show preprocess_frame cv0 dBg (heap0.get 0) = convertImage bg0
      have h0 : convertScaleAbs 0 = 0 := by
        have hf : ⌊(0 : ℚ)⌋ = 0 := Int.floor_zero
        rw [convertScaleAbs, abs_zero, roundHalfEven, hf]
        norm_num [sat8]
      simp [preprocess_frame, cv0, heap0, Heap.get, frame0, convertImage, bg0, h0, dBg])

/-! Claim C10. -/

/-- Writing a fresh copy leaves every valid buffer unchanged. -/
theorem Heap.get_set_alloc (h : Heap) (v v2 : Frame) (r2 : Nat)
    (hlt : r2 < h.next) :
    ((h.alloc v).2.set (h.alloc v).1 v2).get r2 = h.get r2 := by
  show ((h.alloc v).2.set h.next v2).get r2 = h.get r2
  rw [Heap.get_set_ne _ _ _ _ (Nat.ne_of_lt hlt), Heap.get_alloc_of_lt h v r2 hlt]

/-- Claim C10: neither `detect_objects` nor `save_detected_object` mutates
the caller's frame buffer — the boxes and the timestamp text are drawn on
fresh copies only, so the frame at `fref` is unchanged after either call. -/
theorem caller_frame_never_mutated
    (cv : CVPrims) (sys : SysPrims) (env : Env) (d : ObjectDetector)
    (st : ImageStorage) (h : Heap) (fref : Nat) (bbox : ℤ × ℤ × ℤ × ℤ)
    (hv : fref < h.next) :
    (detect_objects cv d h fref).heap.get fref = h.get fref ∧
    (save_detected_object cv sys env st h fref bbox).heap.get fref = h.get fref := by
  constructor
  · cases hbg : d.background with
    | none =>
      simp only [detect_objects, hbg]
      exact Heap.get_alloc_dup h fref
    | some bg =>
      simp only [detect_objects, hbg]
      refine (Heap.get_foldl_set _ fref (Nat.ne_of_lt hv) _ _ _).trans ?_
      exact Heap.get_alloc_dup h fref
  · cases hrs : rate_skip env st <;>
    cases hf1 : check_storage_space st.max_storage_bytes env.free1 <;>
    cases hf2 : check_storage_space st.max_storage_bytes env.free2 <;>
    cases hr : env.renderOk <;> cases hw : env.imwriteOk <;> cases hj : env.jsonOk <;>
    simp [save_detected_object, hrs, hf1, hf2, hr, hw, hj, Heap.get, Heap.set,
      Heap.alloc, Nat.ne_of_lt hv]

/-- Claim C10 exhibited on a concrete frame, detector and store. -/
theorem caller_frame_never_mutated_witness :
    (detect_objects cv0 ObjectDetector.init heap0 0).heap.get 0 = heap0.get 0 ∧
    (save_detected_object cv0 sys0 envGood st0 heap0 0 (1, 2, 3, 4)).heap.get 0
      = heap0.get 0 :=
  caller_frame_never_mutated cv0 sys0 envGood ObjectDetector.init st0 heap0 0
    (1, 2, 3, 4) (by decide)

end Monitor
